import Mathlib

/-!
Verification of the client-side performance-metrics collector
(`static/js/performanceMetrics.js`) and the HTML report builder
(`static/js/htmlReport.js`).

Modelling conventions:
* JS numbers (durations, `performance.now()` readings) are modelled as `ℚ`;
  the statistics use exact rational arithmetic, matching the spec's
  "real-number division".
* `performance.now()` / `new Date().toISOString()` are ambient inputs, so the
  corresponding methods take the current clock reading (a `ℚ`, resp. a
  `String`) as an explicit extra argument.
* A JS object used as a string-keyed map (`componentLoadTimes`,
  `elementTimings`) is modelled as an association list in key-insertion
  order with unique keys, which is exactly the observable behaviour of a JS
  object literal under `obj[k]`, `obj[k] = v` and `Object.entries`.
* Fallible code is modelled with `Option`: a JS expression that throws a
  `TypeError` (field read on `null`) is modelled as returning `none`.
-/

/-- An interaction record, as created by `startInteraction`:
`{ name, startTime: performance.now(), endTime: null, duration: null }`;
`endInteraction` fills in `endTime` and `duration`. -/
structure Interaction where
  name : String
  startTime : ℚ
  endTime : Option ℚ
  duration : Option ℚ
  deriving Repr, DecidableEq

/-- The `this.metrics` sub-object of `PerformanceMetrics`:
`{ interactions: [], componentLoadTimes: {}, elementTimings: {} }`. -/
structure MetricsData where
  interactions : List Interaction
  componentLoadTimes : List (String × List ℚ)
  elementTimings : List (String × List ℚ)
  deriving Repr, DecidableEq

/-- State of a `PerformanceMetrics` instance: the `metrics` object plus the
`currentInteraction` slot (`null` when no interaction is in flight). -/
structure PerformanceMetrics where
  metrics : MetricsData
  currentInteraction : Option Interaction
  deriving Repr, DecidableEq

/-- The constructor: empty history, empty series maps, no in-flight
interaction. -/
def PerformanceMetrics.init : PerformanceMetrics :=
  { metrics := { interactions := [], componentLoadTimes := [], elementTimings := [] }
    currentInteraction := none }

/-- `startInteraction(name)`: overwrites `this.currentInteraction` with a fresh
record `{ name, startTime: performance.now(), endTime: null, duration: null }`.
`now` is the `performance.now()` reading.  (The JS method also returns a
reference to the new in-flight record; no claim uses that return value, so only
the state transition is modelled.) -/
def PerformanceMetrics.startInteraction (pm : PerformanceMetrics) (name : String)
    (now : ℚ) : PerformanceMetrics :=
  { pm with currentInteraction := some { name := name, startTime := now, endTime := none, duration := none } }

/-- `endInteraction()`: if an interaction is in flight, set its `endTime` to
`performance.now()`, set `duration = endTime - startTime`, push it onto
`this.metrics.interactions` and clear `this.currentInteraction`; otherwise do
nothing. -/
def PerformanceMetrics.endInteraction (pm : PerformanceMetrics) (now : ℚ) :
    PerformanceMetrics :=
  match pm.currentInteraction with
  | none => pm
  | some c =>
      { metrics :=
          { pm.metrics with
              interactions := pm.metrics.interactions ++
                [{ c with endTime := some now, duration := some (now - c.startTime) }] }
        currentInteraction := none }

/-- The shared body of `recordComponentLoad` / `recordElementTiming` acting on
one string-keyed map: if the key is absent (`!obj[name]`, i.e. `undefined`),
create it bound to `[]`, then `push(duration)` onto the array at the key.  On
an association list in insertion order with unique keys this appends `d` to
the first (only) entry for `name`, or appends a new `(name, [d])` entry at the
end, matching JS object key-insertion order. -/
def pushSample : List (String × List ℚ) → String → ℚ → List (String × List ℚ)
  | [], name, d => [(name, [d])]
  | (k, s) :: rest, name, d =>
      if k = name then (k, s ++ [d]) :: rest
      else (k, s) :: pushSample rest name d

/-- `recordComponentLoad(componentName, duration)`. -/
def PerformanceMetrics.recordComponentLoad (pm : PerformanceMetrics)
    (componentName : String) (duration : ℚ) : PerformanceMetrics :=
  { pm with metrics :=
      { pm.metrics with
          componentLoadTimes := pushSample pm.metrics.componentLoadTimes componentName duration } }

/-- `recordElementTiming(elementName, duration)`. -/
def PerformanceMetrics.recordElementTiming (pm : PerformanceMetrics)
    (elementName : String) (duration : ℚ) : PerformanceMetrics :=
  { pm with metrics :=
      { pm.metrics with
          elementTimings := pushSample pm.metrics.elementTimings elementName duration } }

/-- The object returned by `getStats` on a non-empty series:
`{ min, max, avg, count }`. -/
structure Stats where
  min : ℚ
  max : ℚ
  avg : ℚ
  count : ℕ
  deriving Repr, DecidableEq

/-- `getStats(data)` (the statistics function; the spec calls it
`computeStatistics`).  The argument may be `undefined` (modelled `none`) or an
array (modelled `some`).  `if (!data || data.length === 0) return null`;
otherwise `Math.min(...data)`, `Math.max(...data)`,
`data.reduce((a, b) => a + b, 0) / data.length`, `data.length`.
(`getStats` is a method on `PerformanceMetrics` in JS but never reads `this`,
so it is modelled as a standalone pure function.) -/
def getStats : Option (List ℚ) → Option Stats
  | none => none
  | some [] => none
  | some (a :: rest) =>
      some { min := rest.foldl Min.min a
             max := rest.foldl Max.max a
             avg := ((a :: rest).foldl (· + ·) 0) / ((a :: rest).length : ℚ)
             count := (a :: rest).length }

/-- The object returned by `generatePerformanceReport()`.  Note on the
`interactions` field: the JS code returns `interactions:
this.metrics.interactions`, i.e. a *reference* to the collector's live array;
this field records the array's contents at call time, and
`reportInteractionsRead` below models what a later read through the stored
reference observes. -/
structure PerformanceReport where
  interactions : List Interaction
  componentStats : List (String × Option Stats)
  elementStats : List (String × Option Stats)
  timestamp : String
  deriving Repr, DecidableEq

/-- `generatePerformanceReport()`: builds `componentStats` / `elementStats` by
mapping `getStats` over `Object.entries` of the two series maps (in
key-insertion order), and stamps the report with `new Date().toISOString()`
(passed as `timestamp`).  The method only reads `this`, so it is a pure
function of the state. -/
def PerformanceMetrics.generatePerformanceReport (pm : PerformanceMetrics)
    (timestamp : String) : PerformanceReport :=
  { interactions := pm.metrics.interactions
    componentStats := pm.metrics.componentLoadTimes.map (fun p => (p.1, getStats (some p.2)))
    elementStats := pm.metrics.elementTimings.map (fun p => (p.1, getStats (some p.2)))
    timestamp := timestamp }

/-- Reading the `interactions` field of a previously returned report when the
collector is now in state `pm`.  The report stores a reference to
`this.metrics.interactions`; that array object is created in the constructor
and never reassigned (only `push`ed to), so dereferencing it yields the
collector's current interaction history. -/
def reportInteractionsRead (pm : PerformanceMetrics) : List Interaction :=
  pm.metrics.interactions

/-- One externally observable call into the metrics collector, with the
`performance.now()` reading the call sees (recording calls never read the
clock). -/
inductive MetricsOp where
  | startI (name : String) (now : ℚ)
  | endI (now : ℚ)
  | recordComponent (name : String) (d : ℚ)
  | recordElement (name : String) (d : ℚ)
  deriving Repr, DecidableEq

/-- Apply one call to the collector state. -/
def applyOp (pm : PerformanceMetrics) : MetricsOp → PerformanceMetrics
  | MetricsOp.startI name now => pm.startInteraction name now
  | MetricsOp.endI now => pm.endInteraction now
  | MetricsOp.recordComponent name d => pm.recordComponentLoad name d
  | MetricsOp.recordElement name d => pm.recordElementTiming name d

/-- Run a sequence of calls. -/
def run (pm : PerformanceMetrics) (ops : List MetricsOp) : PerformanceMetrics :=
  ops.foldl applyOp pm

/-- The clock reading carried by a call, if it reads the clock. -/
def opTime : MetricsOp → Option ℚ
  | MetricsOp.startI _ now => some now
  | MetricsOp.endI now => some now
  | MetricsOp.recordComponent _ _ => none
  | MetricsOp.recordElement _ _ => none

/-- The clock readings in a call sequence are monotone (non-decreasing) and
all at least `t0`.  This is the "monotonic clock" assumption:
`performance.now()` is monotonic in a browser. -/
def timesLB (t0 : ℚ) : List MetricsOp → Prop
  | [] => True
  | op :: rest =>
      match opTime op with
      | none => timesLB t0 rest
      | some t => t0 ≤ t ∧ timesLB t rest

/-- A finalized interaction is well-formed: its `endTime` is present, its
`duration` is exactly `endTime - startTime`, and `startTime ≤ endTime`. -/
def goodInter (i : Interaction) : Prop :=
  ∃ e : ℚ, i.endTime = some e ∧ i.duration = some (e - i.startTime) ∧ i.startTime ≤ e

/-- Every interaction in the collector's history is well-formed. -/
def histOK (pm : PerformanceMetrics) : Prop :=
  ∀ i ∈ pm.metrics.interactions, goodInter i

/-- Record the samples of `samples` in order under one component name. -/
def recordLoads (pm : PerformanceMetrics) (name : String) (samples : List ℚ) :
    PerformanceMetrics :=
  samples.foldl (fun s d => s.recordComponentLoad name d) pm

/-- A screenshot record as pushed by `addScreenshot`:
`{ name, dataUrl, timestamp: new Date().toISOString() }`. -/
structure Screenshot where
  name : String
  dataUrl : String
  timestamp : String
  deriving Repr, DecidableEq

/-- The externally supplied validation-results object; `generateReportHTML`
reads exactly these four fields.  The values are JS numbers used as integer
counts, so they are modelled as `Int` (whose `toString` agrees with JS
number-to-string on integers). -/
structure ValidationResults where
  total : Int
  successful : Int
  failed : Int
  skipped : Int
  deriving Repr, DecidableEq

/-- State of an `HTMLReportGenerator` instance. -/
structure HTMLReportGenerator where
  screenshots : List Screenshot
  performanceData : Option PerformanceReport
  validationResults : Option ValidationResults
  deriving Repr, DecidableEq

/-- The constructor: `this.screenshots = []; this.performanceData = null;
this.validationResults = null;`. -/
def HTMLReportGenerator.init : HTMLReportGenerator :=
  { screenshots := [], performanceData := none, validationResults := none }

/-- `addScreenshot(name, dataUrl)`: pushes
`{ name, dataUrl, timestamp: new Date().toISOString() }` (the clock reading is
passed as `timestamp`). -/
def HTMLReportGenerator.addScreenshot (g : HTMLReportGenerator)
    (name dataUrl timestamp : String) : HTMLReportGenerator :=
  { g with screenshots := g.screenshots ++ [{ name := name, dataUrl := dataUrl, timestamp := timestamp }] }

/-- `setPerformanceData(data)`: stores the object by reference, replacing any
prior value. -/
def HTMLReportGenerator.setPerformanceData (g : HTMLReportGenerator)
    (data : PerformanceReport) : HTMLReportGenerator :=
  { g with performanceData := some data }

/-- `setValidationResults(results)`: stores the object by reference, replacing
any prior value. -/
def HTMLReportGenerator.setValidationResults (g : HTMLReportGenerator)
    (results : ValidationResults) : HTMLReportGenerator :=
  { g with validationResults := some results }

/-!
The constant pieces of the `generateReportHTML` template literal, verbatim
from the source (braces are written `\x7b`/`\x7d` and apostrophes `\x27`).
The literal is cut at each `$\x7b...\x7d` interpolation point, and
additionally at the `<th>...</th><td>` / `</td>` markers around the three
summary counts so that the summary-row context of each count is explicit in
the reassembled template.
-/

/-- Template text from the start of the document up to the `Total Checks` cell. -/
def htmlSeg0 : String :=
  "\n      <!DOCTYPE html>\n      <html>\n      <head>\n        <title>Validation Report</title>\n        <link href=\"https://cdn.jsdelivr.net/npm/bootstrap@5.3.0/dist/css/bootstrap.min.css\" rel=\"stylesheet\">\n        <script src=\"https://cdn.jsdelivr.net/npm/chart.js\"></script>\n        <style>\n          .report-section \x7b margin-bottom: 40px; \x7d\n          .screenshot-thumbnail \x7b \n            cursor: pointer; \n            transition: transform 0.2s;\n            margin: 5px;\n          \x7d\n          .screenshot-thumbnail:hover \x7b transform: scale(1.05); \x7d\n          .modal-image \x7b max-width: 100%; \x7d\n        </style>\n      </head>\n      <body>\n        <div class=\"container mt-4\">\n          <h1 class=\"text-center mb-4\">Validation Report</h1>\n          \n          <div class=\"report-section\">\n            <h2>Validation Summary</h2>\n            <div class=\"row\">\n              <div class=\"col-md-6\">\n                <canvas id=\"summaryChart\"></canvas>\n              </div>\n              <div class=\"col-md-6\">\n                <table class=\"table table-bordered\">\n                  <tr><th>Total Checks</th><td>"

/-- Template text between the `Total Checks` value and the `Successful` row. -/
def htmlSeg1a : String :=
  "</td></tr>\n                  <tr>"

/-- Template text between the `Successful` row and the `Failed` row. -/
def htmlSeg2b : String :=
  "</tr>\n                  <tr>"

/-- Template text between the `Failed` row and the `Skipped` row. -/
def htmlSeg3b : String :=
  "</tr>\n                  <tr>"

/-- Template text from the end of the summary table up to the screenshot gallery. -/
def htmlSeg4b : String :=
  "</tr>\n                </table>\n              </div>\n            </div>\n          </div>\n          \n          <div class=\"report-section\">\n            <h2>Performance Metrics</h2>\n            <div class=\"row\">\n              <div class=\"col-md-6\">\n                <h4>Component Load Times</h4>\n                <canvas id=\"componentLoadChart\"></canvas>\n              </div>\n              <div class=\"col-md-6\">\n                <h4>Interaction Times</h4>\n                <canvas id=\"interactionChart\"></canvas>\n              </div>\n            </div>\n          </div>\n          \n          <div class=\"report-section\">\n            <h2>Screenshots</h2>\n            <div class=\"screenshot-gallery\">\n              "

/-- Per-screenshot template text up to the `src` attribute value. -/
def gallerySeg0 : String :=
  "\n                <img src=\""

/-- Per-screenshot template text between the `src` value and its reuse in `onclick`. -/
def gallerySeg1 : String :=
  "\" \n                     class=\"screenshot-thumbnail img-thumbnail\" \n                     width=\"200\" \n                     data-bs-toggle=\"modal\" \n                     data-bs-target=\"#screenshotModal\"\n                     onclick=\"document.getElementById(\x27modalImage\x27).src=\x27"

/-- Per-screenshot template text after the `onclick` attribute. -/
def gallerySeg2 : String :=
  "\x27\">\n              "

/-- Template text from the end of the gallery up to the first chart datum. -/
def htmlSeg5 : String :=
  "\n            </div>\n          </div>\n          \n          <!-- Screenshot Modal -->\n          <div class=\"modal fade\" id=\"screenshotModal\" tabindex=\"-1\">\n            <div class=\"modal-dialog modal-xl\">\n              <div class=\"modal-content\">\n                <div class=\"modal-body text-center\">\n                  <img id=\"modalImage\" class=\"modal-image\">\n                </div>\n              </div>\n            </div>\n          </div>\n        </div>\n        \n        <script>\n          // Initialize charts\n          document.addEventListener(\x27DOMContentLoaded\x27, function() \x7b\n            // Summary Chart\n            new Chart(document.getElementById(\x27summaryChart\x27), \x7b\n              type: \x27doughnut\x27,\n              data: \x7b\n                labels: [\x27Success\x27, \x27Failed\x27, \x27Skipped\x27],\n                datasets: [\x7b\n                  data: [\n                    "

/-- Template text between the first and second chart data. -/
def htmlSeg6 : String :=
  ",\n                    "

/-- Template text between the second and third chart data. -/
def htmlSeg7 : String :=
  ",\n                    "

/-- Template text from the last chart datum to the end of the document. -/
def htmlSeg8 : String :=
  "\n                  ],\n                  backgroundColor: [\x27#28a745\x27, \x27#dc3545\x27, \x27#ffc107\x27]\n                \x7d]\n              \x7d\n            \x7d);\n            \n            // Performance Charts would be initialized here\n          \x7d);\n        </script>\n      </body>\n      </html>\n    "

/-- The string produced for one screenshot by
`this.screenshots.map(s => ...)`: the per-screenshot sub-template with
`s.dataUrl` interpolated twice (in `src` and in `onclick`). -/
def screenshotSnippet (s : Screenshot) : String :=
  gallerySeg0 ++ s.dataUrl ++ gallerySeg1 ++ s.dataUrl ++ gallerySeg2

/-- `generateReportHTML()`: the template literal with the summary counts, the
chart data and the screenshot gallery (`.map(...).join(\x27\x27)`)
interpolated.  Its very first interpolation reads
`this.validationResults.total`; when `validationResults` is still `null` that
field read throws a `TypeError` before any string exists, modelled as `none`.
The template never reads `this.performanceData`. -/
def HTMLReportGenerator.generateReportHTML (g : HTMLReportGenerator) : Option String :=
  match g.validationResults with
  | none => none
  | some v => some
      (htmlSeg0 ++ toString v.total ++
       htmlSeg1a ++ "<th>Successful</th><td>" ++ toString v.successful ++ "</td>" ++
       htmlSeg2b ++ "<th>Failed</th><td>" ++ toString v.failed ++ "</td>" ++
       htmlSeg3b ++ "<th>Skipped</th><td>" ++ toString v.skipped ++ "</td>" ++
       htmlSeg4b ++ String.join (g.screenshots.map screenshotSnippet) ++
       htmlSeg5 ++ toString v.successful ++
       htmlSeg6 ++ toString v.failed ++
       htmlSeg7 ++ toString v.skipped ++
       htmlSeg8)

/-- `sub` occurs as a contiguous substring of `s`. -/
def strContains (s sub : String) : Prop :=
  ∃ x y : String, s = x ++ sub ++ y

/-- `a` occurs before `b` in `s` (as disjoint substrings, in this order). -/
def strBefore (s a b : String) : Prop :=
  ∃ x y z : String, s = x ++ a ++ y ++ b ++ z

theorem foldl_min_le_init (l : List ℚ) (a : ℚ) : l.foldl Min.min a ≤ a := by
  induction l generalizing a with
  | nil => exact le_refl a
  | cons b t ih => exact le_trans (ih (min a b)) (min_le_left a b)

theorem foldl_min_le_mem (l : List ℚ) (a : ℚ) : ∀ x ∈ l, l.foldl Min.min a ≤ x := by
  induction l generalizing a with
  | nil => intro x hx; cases hx
  | cons b t ih =>
      intro x hx
      rcases List.mem_cons.1 hx with h | h
      · subst h
        exact le_trans (foldl_min_le_init t (min a x)) (min_le_right a x)
      · exact ih (min a b) x h

theorem foldl_min_mem (l : List ℚ) (a : ℚ) : l.foldl Min.min a ∈ a :: l := by
  induction l generalizing a with
  | nil => exact List.mem_singleton.2 rfl
  | cons b t ih =>
      have h := ih (min a b)
      rcases List.mem_cons.1 h with h | h
      · rcases min_choice a b with hm | hm
        · exact List.mem_cons.2 (Or.inl (h.trans hm))
        · exact List.mem_cons.2 (Or.inr (List.mem_cons.2 (Or.inl (h.trans hm))))
      · exact List.mem_cons.2 (Or.inr (List.mem_cons.2 (Or.inr h)))

theorem foldl_max_init_le (l : List ℚ) (a : ℚ) : a ≤ l.foldl Max.max a := by
  induction l generalizing a with
  | nil => exact le_refl a
  | cons b t ih => exact le_trans (le_max_left a b) (ih (max a b))

theorem foldl_max_mem_le (l : List ℚ) (a : ℚ) : ∀ x ∈ l, x ≤ l.foldl Max.max a := by
  induction l generalizing a with
  | nil => intro x hx; cases hx
  | cons b t ih =>
      intro x hx
      rcases List.mem_cons.1 hx with h | h
      · subst h
        exact le_trans (le_max_right a x) (foldl_max_init_le t (max a x))
      · exact ih (max a b) x h

theorem foldl_max_mem (l : List ℚ) (a : ℚ) : l.foldl Max.max a ∈ a :: l := by
  induction l generalizing a with
  | nil => exact List.mem_singleton.2 rfl
  | cons b t ih =>
      have h := ih (max a b)
      rcases List.mem_cons.1 h with h | h
      · rcases max_choice a b with hm | hm
        · exact List.mem_cons.2 (Or.inl (h.trans hm))
        · exact List.mem_cons.2 (Or.inr (List.mem_cons.2 (Or.inl (h.trans hm))))
      · exact List.mem_cons.2 (Or.inr (List.mem_cons.2 (Or.inr h)))

theorem foldl_add_eq_sum (l : List ℚ) : l.foldl (· + ·) 0 = l.sum := by
  rw [List.sum_eq_foldl]

theorem lookup_pushSample_self (m : List (String × List ℚ)) (name : String) (d : ℚ) :
    List.lookup name (pushSample m name d) =
      some (((List.lookup name m).getD []) ++ [d]) := by
  induction m with
  | nil => simp [pushSample]
  | cons p rest ih =>
      obtain ⟨k, s⟩ := p
      by_cases hk : k = name
      · subst hk; simp [pushSample]
      · simp [pushSample, hk, List.lookup_cons, beq_false_of_ne (Ne.symm hk), ih]

theorem lookup_pushSample_ne (m : List (String × List ℚ)) (name m' : String) (d : ℚ)
    (h : m' ≠ name) :
    List.lookup m' (pushSample m name d) = List.lookup m' m := by
  induction m with
  | nil => simp [pushSample, List.lookup_cons, beq_false_of_ne h]
  | cons p rest ih =>
      obtain ⟨k, s⟩ := p
      by_cases hk : k = name
      · subst hk; simp [pushSample, List.lookup_cons, beq_false_of_ne h]
      · by_cases hk' : m' = k
        · subst hk'; simp [pushSample, hk, List.lookup_cons]
        · simp [pushSample, hk, List.lookup_cons, beq_false_of_ne hk', ih]

theorem lookup_recordLoads (samples : List ℚ) (pm : PerformanceMetrics) (name : String)
    (s0 : List ℚ) (h : List.lookup name pm.metrics.componentLoadTimes = some s0) :
    List.lookup name (recordLoads pm name samples).metrics.componentLoadTimes =
      some (s0 ++ samples) := by
  induction samples generalizing pm s0 with
  | nil => simpa [recordLoads] using h
  | cons d rest ih =>
      have h1 : List.lookup name (pm.recordComponentLoad name d).metrics.componentLoadTimes =
          some (s0 ++ [d]) := by
        simp [PerformanceMetrics.recordComponentLoad, lookup_pushSample_self, h]
      have h2 := ih (pm.recordComponentLoad name d) (s0 ++ [d]) h1
      simpa [recordLoads, List.append_assoc] using h2

/-- C1: for every non-empty sequence of samples recorded with
`recordComponentLoad` under one name, the statistics function `getStats`
returns a summary whose `min` is the minimum of the samples (a sample that is
a lower bound of all), whose `max` is the maximum, whose `avg` is the sum of
the samples divided by their number (exact division), and whose `count` is the
number of samples, duplicates included (the series stores the samples as
given). -/
theorem claim_C1_statistics (name : String) (samples : List ℚ) (h : samples ≠ []) :
    ∃ st : Stats,
      List.lookup name (recordLoads PerformanceMetrics.init name samples).metrics.componentLoadTimes =
        some samples ∧
      getStats (List.lookup name
        (recordLoads PerformanceMetrics.init name samples).metrics.componentLoadTimes) = some st ∧
      st.min ∈ samples ∧ (∀ x ∈ samples, st.min ≤ x) ∧
      st.max ∈ samples ∧ (∀ x ∈ samples, x ≤ st.max) ∧
      st.avg = samples.sum / (samples.length : ℚ) ∧
      st.count = samples.length := by
  obtain ⟨a, rest, rfl⟩ : ∃ a rest, samples = a :: rest := by
    cases samples with
    | nil => exact absurd rfl h
    | cons a rest => exact ⟨a, rest, rfl⟩
  have hlk : List.lookup name
      (recordLoads PerformanceMetrics.init name (a :: rest)).metrics.componentLoadTimes =
      some (a :: rest) := by
    have hstep : List.lookup name
        (PerformanceMetrics.init.recordComponentLoad name a).metrics.componentLoadTimes =
        some [a] := by
      simp [PerformanceMetrics.recordComponentLoad, PerformanceMetrics.init, pushSample]
    have h2 := lookup_recordLoads rest (PerformanceMetrics.init.recordComponentLoad name a)
      name [a] hstep
    have h3 : recordLoads PerformanceMetrics.init name (a :: rest) =
        recordLoads (PerformanceMetrics.init.recordComponentLoad name a) name rest := by
      simp [recordLoads]
    rw [h3]
    simpa using h2
  refine ⟨{ min := rest.foldl Min.min a, max := rest.foldl Max.max a,
            avg := ((a :: rest).foldl (· + ·) 0) / (((a :: rest).length : ℕ) : ℚ),
            count := (a :: rest).length }, hlk, ?_, ?_, ?_, ?_, ?_, ?_, ?_⟩
  · rw [hlk]; rfl
  · exact foldl_min_mem rest a
  · intro x hx
    rcases List.mem_cons.1 hx with hx | hx
    · subst hx; exact foldl_min_le_init rest x
    · exact foldl_min_le_mem rest a x hx
  · exact foldl_max_mem rest a
  · intro x hx
    rcases List.mem_cons.1 hx with hx | hx
    · subst hx; exact foldl_max_init_le rest x
    · exact foldl_max_mem_le rest a x hx
  · show ((a :: rest).foldl (· + ·) 0) / (((a :: rest).length : ℕ) : ℚ) = _
    rw [foldl_add_eq_sum]
  · rfl

/-- C1 witness: the statement instantiated at the concrete series
`[3, 1, 2]` recorded under the name `"load"`. -/
theorem claim_C1_statistics_witness :
    ∃ st : Stats,
      List.lookup "load"
          (recordLoads PerformanceMetrics.init "load" [3, 1, 2]).metrics.componentLoadTimes =
        some [3, 1, 2] ∧
      getStats (List.lookup "load"
        (recordLoads PerformanceMetrics.init "load" [3, 1, 2]).metrics.componentLoadTimes) = some st ∧
      st.min ∈ [3, 1, 2] ∧ (∀ x ∈ [3, 1, 2], st.min ≤ x) ∧
      st.max ∈ [3, 1, 2] ∧ (∀ x ∈ [3, 1, 2], x ≤ st.max) ∧
      st.avg = [(3 : ℚ), 1, 2].sum / (([(3 : ℚ), 1, 2].length : ℕ) : ℚ) ∧
      st.count = [(3 : ℚ), 1, 2].length :=
  claim_C1_statistics "load" [3, 1, 2] (by simp)

/-- C2: the statistics function returns the explicit absent value (`null`,
modelled `none`) on a missing series (`undefined` argument) and on an empty
series; being a total function of its argument it raises no fault and, in
particular, performs no division on these inputs. -/
theorem claim_C2_empty_series :
    getStats none = none ∧ getStats (some ([] : List ℚ)) = none :=
  ⟨rfl, rfl⟩

/-- C5: starting a second interaction without ending the first overwrites the
in-flight record; the single `endInteraction` then appends exactly one entry —
the finalized second interaction — to the history, and the components, series
maps and in-flight slot end as expected.  The second conjunct records that the
first in-flight record `{ name := n1, startTime := t1, endTime : null,
duration : null }` is in the final history only if it already was in the
history before (its `endTime` is `null` while every appended entry carries
`some`), i.e. the first started interaction is lost; the second
`startInteraction` is a total function, so no error is raised. -/
theorem claim_C5_double_start (pm : PerformanceMetrics) (n1 n2 : String) (t1 t2 t3 : ℚ) :
    ((pm.startInteraction n1 t1).startInteraction n2 t2).endInteraction t3 =
      { metrics :=
          { pm.metrics with
              interactions := pm.metrics.interactions ++
                [{ name := n2, startTime := t2, endTime := some t3, duration := some (t3 - t2) }] }
        currentInteraction := none } ∧
    ({ name := n1, startTime := t1, endTime := none, duration := none } ∈
        (((pm.startInteraction n1 t1).startInteraction n2 t2).endInteraction t3).metrics.interactions ↔
      { name := n1, startTime := t1, endTime := none, duration := none } ∈
        pm.metrics.interactions) := by
  constructor
  · rfl
  · simp [PerformanceMetrics.endInteraction, PerformanceMetrics.startInteraction]

theorem run_histOK (ops : List MetricsOp) (pm : PerformanceMetrics) (t0 : ℚ)
    (hh : histOK pm) (hc : ∀ c, pm.currentInteraction = some c → c.startTime ≤ t0)
    (ht : timesLB t0 ops) : histOK (run pm ops) := by
  induction ops generalizing pm t0 with
  | nil => exact hh
  | cons op rest ih =>
      have hrun : run pm (op :: rest) = run (applyOp pm op) rest := by
        simp [run]
      rw [hrun]
      cases op with
      | startI name now =>
          obtain ⟨h1, h2⟩ : t0 ≤ now ∧ timesLB now rest := ht
          refine ih (pm.startInteraction name now) now hh ?_ h2
          intro c hcc
          have h3 : Interaction.mk name now none none = c := by
            simpa [PerformanceMetrics.startInteraction] using hcc
          rw [← h3]
      | endI now =>
          obtain ⟨h1, h2⟩ : t0 ≤ now ∧ timesLB now rest := ht
          cases hcur : pm.currentInteraction with
          | none =>
              refine ih (pm.endInteraction now) now ?_ ?_ h2
              · simpa [PerformanceMetrics.endInteraction, hcur] using hh
              · simp [PerformanceMetrics.endInteraction, hcur, hcur]
          | some c =>
              refine ih (pm.endInteraction now) now ?_ ?_ h2
              · intro i hi
                simp only [PerformanceMetrics.endInteraction, hcur, List.mem_append,
                  List.mem_singleton] at hi
                rcases hi with hi | hi
                · exact hh i hi
                · subst hi
                  exact ⟨now, rfl, rfl, le_trans (hc c hcur) h1⟩
              · simp [PerformanceMetrics.endInteraction, hcur]
      | recordComponent name d =>
          refine ih (pm.recordComponentLoad name d) t0 hh ?_ ht
          intro c hcc
          exact hc c (by simpa [PerformanceMetrics.recordComponentLoad] using hcc)
      | recordElement name d =>
          refine ih (pm.recordElementTiming name d) t0 hh ?_ ht
          intro c hcc
          exact hc c (by simpa [PerformanceMetrics.recordElementTiming] using hcc)

/-- C6: along any call sequence whose clock readings are monotone (the
`performance.now()` readings are non-decreasing), every finalized interaction
in the history has `endTime = some e` with `duration = e - startTime` and
`startTime ≤ e` (so the duration is non-negative); and `startInteraction("x")`
immediately followed by `endInteraction()` appends exactly the one finalized
interaction `{ "x", t1, some t2, some (t2 - t1) }` with non-negative duration
and clears the in-flight slot. -/
theorem claim_C6_finalized_wellformed :
    (∀ (ops : List MetricsOp) (t0 : ℚ), timesLB t0 ops →
      histOK (run PerformanceMetrics.init ops)) ∧
    (∀ (pm : PerformanceMetrics) (t1 t2 : ℚ), t1 ≤ t2 →
      (pm.startInteraction "x" t1).endInteraction t2 =
        { metrics :=
            { pm.metrics with
                interactions := pm.metrics.interactions ++
                  [{ name := "x", startTime := t1, endTime := some t2,
                     duration := some (t2 - t1) }] }
          currentInteraction := none } ∧
      0 ≤ t2 - t1) := by
  constructor
  · intro ops t0 ht
    refine run_histOK ops PerformanceMetrics.init t0 ?_ ?_ ht
    · intro i hi
      simp [PerformanceMetrics.init] at hi
    · intro c hcc
      simp [PerformanceMetrics.init] at hcc
  · intro pm t1 t2 h
    exact ⟨rfl, by linarith⟩

/-- C6 witness: the trace `startInteraction("x")` at time `0` followed by
`endInteraction()` at time `1` from a fresh collector, and the same
two-call scenario evaluated explicitly. -/
theorem claim_C6_finalized_wellformed_witness :
    histOK (run PerformanceMetrics.init [MetricsOp.startI "x" 0, MetricsOp.endI 1]) ∧
    ((PerformanceMetrics.init.startInteraction "x" 0).endInteraction 1 =
      { metrics :=
          { PerformanceMetrics.init.metrics with
              interactions := PerformanceMetrics.init.metrics.interactions ++
                [{ name := "x", startTime := 0, endTime := some 1,
                   duration := some ((1 : ℚ) - 0) }] }
        currentInteraction := none } ∧
      0 ≤ (1 : ℚ) - 0) :=
  ⟨claim_C6_finalized_wellformed.1 [MetricsOp.startI "x" 0, MetricsOp.endI 1] 0
      (by simp [timesLB, opTime]),
   claim_C6_finalized_wellformed.2 PerformanceMetrics.init 0 1 (by norm_num)⟩

/-- C7: `generatePerformanceReport` only reads the collector state (in the
embedding it is a pure function of the state, matching the JS method, which
performs no assignment), so two calls on the same state differ at most in the
`timestamp` field: the first report equals the second with its timestamp
replaced. -/
theorem claim_C7_report_idempotent (pm : PerformanceMetrics) (ts1 ts2 : String) :
    pm.generatePerformanceReport ts1 =
      { pm.generatePerformanceReport ts2 with timestamp := ts1 } :=
  rfl

/-- C4 counterexample: from a fresh collector, take the report, then complete
one further interaction (`startInteraction("x")` at time `0`,
`endInteraction()` at time `1`).  Reading the report's `interactions` field
afterwards (through the array reference the report stores) no longer yields
the empty history it held at call time: the claim that later mutations do not
change the returned report's interaction sequence is false. -/
theorem claim_C4_counterexample :
    reportInteractionsRead
        (run PerformanceMetrics.init [MetricsOp.startI "x" 0, MetricsOp.endI 1]) ≠
      (PerformanceMetrics.init.generatePerformanceReport "ts").interactions := by
  decide

/-- C4 (amended): `generatePerformanceReport()` returns the interaction
history by reference (`interactions: this.metrics.interactions`), so
completing a further interaction after the call does change the interaction
sequence observed through the previously returned report: it becomes the
sequence held at call time with the newly finalized entry appended. -/
theorem claim_C4_amended (pm : PerformanceMetrics) (ts : String) (name : String)
    (t1 t2 : ℚ) :
    reportInteractionsRead (run pm [MetricsOp.startI name t1, MetricsOp.endI t2]) =
      (pm.generatePerformanceReport ts).interactions ++
        [{ name := name, startTime := t1, endTime := some t2,
           duration := some (t2 - t1) }] :=
  rfl

theorem pushSample_nonempty (m : List (String × List ℚ)) (name : String) (d : ℚ)
    (h : ∀ p ∈ m, p.2 ≠ []) : ∀ p ∈ pushSample m name d, p.2 ≠ [] := by
  induction m with
  | nil =>
      intro p hp
      simp [pushSample] at hp
      simp [hp]
  | cons q rest ih =>
      obtain ⟨k, s⟩ := q
      intro p hp
      by_cases hk : k = name
      · subst hk
        simp [pushSample] at hp
        rcases hp with hp | hp
        · simp [hp]
        · exact h p (List.mem_cons.2 (Or.inr hp))
      · simp [pushSample, hk] at hp
        rcases hp with hp | hp
        · subst hp
          exact h (k, s) (List.mem_cons.2 (Or.inl rfl))
        · exact ih (fun q hq => h q (List.mem_cons.2 (Or.inr hq))) p hp

theorem run_series_nonempty (ops : List MetricsOp) (pm : PerformanceMetrics)
    (hc : ∀ p ∈ pm.metrics.componentLoadTimes, p.2 ≠ [])
    (he : ∀ p ∈ pm.metrics.elementTimings, p.2 ≠ []) :
    (∀ p ∈ (run pm ops).metrics.componentLoadTimes, p.2 ≠ []) ∧
      (∀ p ∈ (run pm ops).metrics.elementTimings, p.2 ≠ []) := by
  induction ops generalizing pm with
  | nil => exact ⟨hc, he⟩
  | cons op rest ih =>
      have hrun : run pm (op :: rest) = run (applyOp pm op) rest := by
        simp [run]
      rw [hrun]
      cases op with
      | startI name now => exact ih (pm.startInteraction name now) hc he
      | endI now =>
          have hc2 : (pm.endInteraction now).metrics.componentLoadTimes =
              pm.metrics.componentLoadTimes := by
            cases hcur : pm.currentInteraction <;>
              simp [PerformanceMetrics.endInteraction, hcur]
          have he2 : (pm.endInteraction now).metrics.elementTimings =
              pm.metrics.elementTimings := by
            cases hcur : pm.currentInteraction <;>
              simp [PerformanceMetrics.endInteraction, hcur]
          refine ih (pm.endInteraction now) ?_ ?_
          · rw [hc2]; exact hc
          · rw [he2]; exact he
      | recordComponent name d =>
          exact ih (pm.recordComponentLoad name d)
            (pushSample_nonempty pm.metrics.componentLoadTimes name d hc) he
      | recordElement name d =>
          exact ih (pm.recordElementTiming name d) hc
            (pushSample_nonempty pm.metrics.elementTimings name d he)

/-- C9: in any state reachable from a fresh collector, every stored series is
non-empty (`recordComponentLoad` / `recordElementTiming` create a series and
immediately push a sample), so every entry of `componentStats` and
`elementStats` in a generated report carries a present (`some`) statistics
summary — the `null` branch of `getStats` is never taken there. -/
theorem claim_C9_stats_present (ops : List MetricsOp) (ts : String) :
    (((run PerformanceMetrics.init ops).generatePerformanceReport ts).componentStats.all
        (fun p => p.2.isSome) = true) ∧
    (((run PerformanceMetrics.init ops).generatePerformanceReport ts).elementStats.all
        (fun p => p.2.isSome) = true) := by
  obtain ⟨hc, he⟩ := run_series_nonempty ops PerformanceMetrics.init
    (by intro p hp; simp [PerformanceMetrics.init] at hp)
    (by intro p hp; simp [PerformanceMetrics.init] at hp)
  constructor
  · rw [List.all_eq_true]
    intro p hp
    simp only [PerformanceMetrics.generatePerformanceReport, List.mem_map] at hp
    obtain ⟨q, hq, rfl⟩ := hp
    have hne := hc q hq
    cases hs : q.2 with
    | nil => exact absurd hs hne
    | cons a r => simp [getStats, hs]
  · rw [List.all_eq_true]
    intro p hp
    simp only [PerformanceMetrics.generatePerformanceReport, List.mem_map] at hp
    obtain ⟨q, hq, rfl⟩ := hp
    have hne := he q hq
    cases hs : q.2 with
    | nil => exact absurd hs hne
    | cons a r => simp [getStats, hs]

/-- C10: `recordComponentLoad(n, d)` leaves `elementTimings`, the interaction
history and the in-flight slot untouched, appends `d` to the series of `n`
(creating it if absent: the previous value is the empty list), and leaves the
series of every other name unchanged; symmetrically for
`recordElementTiming`. -/
theorem claim_C10_record_frame :
    (∀ (pm : PerformanceMetrics) (n : String) (d : ℚ),
      (pm.recordComponentLoad n d).metrics.elementTimings = pm.metrics.elementTimings ∧
      (pm.recordComponentLoad n d).metrics.interactions = pm.metrics.interactions ∧
      (pm.recordComponentLoad n d).currentInteraction = pm.currentInteraction ∧
      List.lookup n (pm.recordComponentLoad n d).metrics.componentLoadTimes =
        some (((List.lookup n pm.metrics.componentLoadTimes).getD []) ++ [d]) ∧
      ∀ m : String, m ≠ n →
        List.lookup m (pm.recordComponentLoad n d).metrics.componentLoadTimes =
          List.lookup m pm.metrics.componentLoadTimes) ∧
    (∀ (pm : PerformanceMetrics) (n : String) (d : ℚ),
      (pm.recordElementTiming n d).metrics.componentLoadTimes = pm.metrics.componentLoadTimes ∧
      (pm.recordElementTiming n d).metrics.interactions = pm.metrics.interactions ∧
      (pm.recordElementTiming n d).currentInteraction = pm.currentInteraction ∧
      List.lookup n (pm.recordElementTiming n d).metrics.elementTimings =
        some (((List.lookup n pm.metrics.elementTimings).getD []) ++ [d]) ∧
      ∀ m : String, m ≠ n →
        List.lookup m (pm.recordElementTiming n d).metrics.elementTimings =
          List.lookup m pm.metrics.elementTimings) := by
  constructor
  · intro pm n d
    refine ⟨rfl, rfl, rfl, ?_, ?_⟩
    · exact lookup_pushSample_self pm.metrics.componentLoadTimes n d
    · intro m hm
      exact lookup_pushSample_ne pm.metrics.componentLoadTimes n m d hm
  · intro pm n d
    refine ⟨rfl, rfl, rfl, ?_, ?_⟩
    · exact lookup_pushSample_self pm.metrics.elementTimings n d
    · intro m hm
      exact lookup_pushSample_ne pm.metrics.elementTimings n m d hm

/-- C10 witness: the frame conditions evaluated on a fresh collector for the
component name `"a"`, the sample `1`, and the distinct other name `"b"`. -/
theorem claim_C10_record_frame_witness :
    ((PerformanceMetrics.init.recordComponentLoad "a" 1).metrics.elementTimings =
        PerformanceMetrics.init.metrics.elementTimings ∧
      List.lookup "a"
        (PerformanceMetrics.init.recordComponentLoad "a" 1).metrics.componentLoadTimes =
        some (((List.lookup "a" PerformanceMetrics.init.metrics.componentLoadTimes).getD []) ++ [1]) ∧
      List.lookup "b"
        (PerformanceMetrics.init.recordComponentLoad "a" 1).metrics.componentLoadTimes =
        List.lookup "b" PerformanceMetrics.init.metrics.componentLoadTimes) ∧
    ((PerformanceMetrics.init.recordElementTiming "a" 1).metrics.componentLoadTimes =
        PerformanceMetrics.init.metrics.componentLoadTimes ∧
      List.lookup "b"
        (PerformanceMetrics.init.recordElementTiming "a" 1).metrics.elementTimings =
        List.lookup "b" PerformanceMetrics.init.metrics.elementTimings) :=
  ⟨⟨(claim_C10_record_frame.1 PerformanceMetrics.init "a" 1).1,
    (claim_C10_record_frame.1 PerformanceMetrics.init "a" 1).2.2.2.1,
    (claim_C10_record_frame.1 PerformanceMetrics.init "a" 1).2.2.2.2 "b" (by decide)⟩,
   ⟨(claim_C10_record_frame.2 PerformanceMetrics.init "a" 1).1,
    (claim_C10_record_frame.2 PerformanceMetrics.init "a" 1).2.2.2.2 "b" (by decide)⟩⟩

/-- C3: `generateReportHTML()` evaluates
`${this.validationResults.total}` as its first interpolation; before
`setValidationResults` has been called the field read on `null` throws (the
equivalent fatal failure, modelled `none`), so no partial document with
undefined values is returned; after any `setValidationResults` call the
generation succeeds (returns `some` document). -/
theorem claim_C3_missing_validation :
    (∀ g : HTMLReportGenerator, g.validationResults = none →
      g.generateReportHTML = none) ∧
    (∀ (g : HTMLReportGenerator) (v : ValidationResults),
      ((g.setValidationResults v).generateReportHTML).isSome = true) := by
  constructor
  · intro g hg
    simp [HTMLReportGenerator.generateReportHTML, hg]
  · intro g v
    simp [HTMLReportGenerator.generateReportHTML, HTMLReportGenerator.setValidationResults]

/-- C3 witness: a fresh report builder has `validationResults = null` and
generation fails; after setting results `{10, 7, 2, 1}` it succeeds. -/
theorem claim_C3_missing_validation_witness :
    HTMLReportGenerator.init.generateReportHTML = none ∧
    ((HTMLReportGenerator.init.setValidationResults
        { total := 10, successful := 7, failed := 2, skipped := 1 }).generateReportHTML).isSome = true :=
  ⟨claim_C3_missing_validation.1 HTMLReportGenerator.init rfl,
   claim_C3_missing_validation.2 HTMLReportGenerator.init
     { total := 10, successful := 7, failed := 2, skipped := 1 }⟩

/-- The concrete document of the C8 scenario, written as the flat
concatenation of the template segments with the interpolated values: two
screenshots `("login", imgA)` and `("dashboard", imgB)` in this order, and
validation results `{10, 7, 2, 1}`. -/
theorem generateReportHTML_concrete (tsA tsB : String) :
    (((HTMLReportGenerator.init.addScreenshot "login" "imgA" tsA).addScreenshot
        "dashboard" "imgB" tsB).setValidationResults
        { total := 10, successful := 7, failed := 2, skipped := 1 }).generateReportHTML =
      some (htmlSeg0 ++ "10" ++ htmlSeg1a ++ "<th>Successful</th><td>" ++ "7" ++ "</td>" ++
        htmlSeg2b ++ "<th>Failed</th><td>" ++ "2" ++ "</td>" ++
        htmlSeg3b ++ "<th>Skipped</th><td>" ++ "1" ++ "</td>" ++
        htmlSeg4b ++ gallerySeg0 ++ "imgA" ++ gallerySeg1 ++ "imgA" ++ gallerySeg2 ++
        gallerySeg0 ++ "imgB" ++ gallerySeg1 ++ "imgB" ++ gallerySeg2 ++
        htmlSeg5 ++ "7" ++ htmlSeg6 ++ "2" ++ htmlSeg7 ++ "1" ++ htmlSeg8) := by
  have h10 : toString (10 : Int) = "10" := rfl
  have h7 : toString (7 : Int) = "7" := rfl
  have h2 : toString (2 : Int) = "2" := rfl
  have h1 : toString (1 : Int) = "1" := rfl
  simp [HTMLReportGenerator.generateReportHTML, HTMLReportGenerator.setValidationResults,
    HTMLReportGenerator.addScreenshot, HTMLReportGenerator.init, screenshotSnippet,
    String.join, h10, h7, h2, h1, String.append_assoc, String.empty_append]

theorem strContains_extendR (s t sub : String) (h : strContains s sub) :
    strContains (s ++ t) sub := by
  obtain ⟨x, y, rfl⟩ := h
  exact ⟨x, y ++ t, by simp [String.append_assoc]⟩

theorem strContains_tail3 (p a b c sub : String) (h : a ++ b ++ c = sub) :
    strContains (p ++ a ++ b ++ c) sub := by
  refine ⟨p, "", ?_⟩
  rw [String.append_empty, ← h]
  simp [String.append_assoc]

/-- C8: with validation results `{total: 10, successful: 7, failed: 2,
skipped: 1}` set and screenshots `("login", imgA)` then `("dashboard", imgB)`
added (at arbitrary capture times), `generateReportHTML()` succeeds and its
output contains the summary-table cells `<th>Successful</th><td>7</td>`,
`<th>Failed</th><td>2</td>` and `<th>Skipped</th><td>1</td>` (so the literal
substrings `7`, `2`, `1` appear in the summary section of the document), and
contains `imgA` before `imgB` (the gallery renders the screenshots in
insertion order); moreover `addScreenshot` commutes with
`setValidationResults` and with `setPerformanceData` on the builder state, so
the insertion order is preserved regardless of when the setters are called
relative to the `addScreenshot` calls. -/
theorem claim_C8_report_content (tsA tsB : String) :
    (∃ html : String,
      (((HTMLReportGenerator.init.addScreenshot "login" "imgA" tsA).addScreenshot
          "dashboard" "imgB" tsB).setValidationResults
          { total := 10, successful := 7, failed := 2, skipped := 1 }).generateReportHTML =
        some html ∧
      strContains html "<th>Successful</th><td>7</td>" ∧
      strContains html "<th>Failed</th><td>2</td>" ∧
      strContains html "<th>Skipped</th><td>1</td>" ∧
      strBefore html "imgA" "imgB") ∧
    (∀ (g : HTMLReportGenerator) (n d ts : String) (r : ValidationResults)
        (p : PerformanceReport),
      (g.addScreenshot n d ts).setValidationResults r =
        (g.setValidationResults r).addScreenshot n d ts ∧
      (g.addScreenshot n d ts).setPerformanceData p =
        (g.setPerformanceData p).addScreenshot n d ts) := by
  constructor
  · refine ⟨_, generateReportHTML_concrete tsA tsB, ?_, ?_, ?_, ?_⟩
    · iterate 26 apply strContains_extendR
      exact strContains_tail3 _ _ _ _ _ rfl
    · iterate 22 apply strContains_extendR
      exact strContains_tail3 _ _ _ _ _ rfl
    · iterate 18 apply strContains_extendR
      exact strContains_tail3 _ _ _ _ _ rfl
    · refine ⟨htmlSeg0 ++ "10" ++ htmlSeg1a ++ "<th>Successful</th><td>" ++ "7" ++ "</td>" ++
        htmlSeg2b ++ "<th>Failed</th><td>" ++ "2" ++ "</td>" ++
        htmlSeg3b ++ "<th>Skipped</th><td>" ++ "1" ++ "</td>" ++
        htmlSeg4b ++ gallerySeg0,
        gallerySeg1 ++ "imgA" ++ gallerySeg2 ++ gallerySeg0,
        gallerySeg1 ++ "imgB" ++ gallerySeg2 ++ htmlSeg5 ++ "7" ++ htmlSeg6 ++ "2" ++
        htmlSeg7 ++ "1" ++ htmlSeg8, ?_⟩
      simp [String.append_assoc]
  · intro g n d ts r p
    exact ⟨rfl, rfl⟩
